import Mathlib

/-!
Verification of the SkipSlicer CSV pipeline (src/skip-slicer-v4.py).

Shallow embedding of the core pipeline: `validate_columns`, `get_phone_data`,
the phone-counting loop and merge of `process_files`, `create_roor_record`,
`create_readymode_record`, and the per-cell CSV emission of
`convert_df_to_csv`.

Modelling conventions:
* A pandas cell is a `Cell`: `na` (NaN/None), a string, or an integer-valued
  number.  Floating point is not modelled; numeric cells that the code only
  ever stringifies (latitude/longitude) are carried as strings, and numeric
  cells that are coerced with `int(...)` are carried as integers.
* A row is an association list from column name to `Cell`; `rowGet` is the
  absence-tolerant `row.get(col, default)` access of the source.
* Python exceptions raised by `int(...)` / `float(...)` are modelled with
  `Except String`; an error aborts the rest of the computation exactly as an
  uncaught exception aborts the Python loops.
* `str.strip` / `str.lower` / `str.isdigit` are modelled on ASCII data
  (the character classes exercised by the pipeline's inputs).
-/

namespace SkipSlicer

/-- A single pandas cell: NaN/None, a string, or an integer-valued number. -/
inductive Cell where
  | na : Cell
  | str : String → Cell
  | num : Int → Cell
deriving DecidableEq

/-- `pd.notna` on a cell. -/
def Cell.notna : Cell → Bool
  | .na => false
  | _ => true

/-- Python `x != ''` on a cell (NaN and numbers are unequal to the empty string). -/
def Cell.neEmpty : Cell → Bool
  | .str s => !(s == "")
  | _ => true

/-- A row: ordered association list from column name to cell. -/
abbrev Row := List (String × Cell)

/-- A record built by the projectors: same shape as a row. -/
abbrev Rec := List (String × Cell)

/-- `row.get(k, d)`: first entry with key `k`, else the default. -/
def rowGet (r : Row) (k : String) (d : Cell) : Cell :=
  match r.find? (fun p => p.1 == k) with
  | some p => p.2
  | none => d

/-- ASCII decimal digit test (the character class behind Python `str.isdigit`
for the pipeline's inputs). -/
def isDigitChar (c : Char) : Bool := 48 ≤ c.toNat && c.toNat ≤ 57

/-- ASCII whitespace test (the character class behind Python `str.strip`). -/
def isSpaceChar (c : Char) : Bool :=
  c.toNat == 32 || c.toNat == 9 || c.toNat == 10 || c.toNat == 13 ||
  c.toNat == 11 || c.toNat == 12

/-- ASCII lower-casing of one character (Python `str.lower`). -/
def lowerChar (c : Char) : Char :=
  if 65 ≤ c.toNat && c.toNat ≤ 90 then Char.ofNat (c.toNat + 32) else c

/-- Python `str.lower`. -/
def pyLower (s : String) : String := ⟨s.data.map lowerChar⟩

/-- Strip leading and trailing whitespace from a character list. -/
def trimChars (l : List Char) : List Char :=
  ((l.dropWhile isSpaceChar).reverse.dropWhile isSpaceChar).reverse

/-- Python `str.strip`. -/
def pyStrip (s : String) : String := ⟨trimChars s.data⟩

/-- Python `str.isdigit` (ASCII digits): nonempty and all digits. -/
def pyIsdigit (s : String) : Bool := !s.data.isEmpty && s.data.all isDigitChar

/-- The decimal digit with value `d`. -/
def digitChar (d : Nat) : Char := Char.ofNat (48 + d)

/-- Value of a (most-significant-first) digit list. -/
def digitsToNat (l : List Char) : Nat :=
  l.foldl (fun a c => a * 10 + (c.toNat - 48)) 0

/-- Fuel-driven decimal digits of a natural number, most significant first. -/
def natDigitsGo : Nat → Nat → List Char
  | 0, _ => []
  | fuel + 1, n =>
    if n < 10 then [digitChar n]
    else natDigitsGo fuel (n / 10) ++ [digitChar (n % 10)]

/-- Decimal digits of a natural number, most significant first. -/
def natDigits (n : Nat) : List Char := natDigitsGo (n + 1) n

/-- Python `str` of a natural number. -/
def natRepr (n : Nat) : String := ⟨natDigits n⟩

/-- Python `str` of an integer. -/
def intRepr : Int → String
  | Int.ofNat n => ⟨natDigits n⟩
  | Int.negSucc m => ⟨Char.ofNat 45 :: natDigits (m + 1)⟩

/-- Python `str(x)` of a cell (`str(nan)` is "nan"; only the string and
numeric cases are ever reached by the pipeline). -/
def Cell.pyStr : Cell → String
  | .na => "nan"
  | .str s => s
  | .num n => intRepr n

/-- Python `int(s)` for a string: optional whitespace, optional sign, digits. -/
def pyIntOfString (s : String) : Except String Int :=
  match trimChars s.data with
  | [] => .error ("invalid literal for int() with base 10: \x27" ++ s ++ "\x27")
  | c :: rest =>
    if c == Char.ofNat 45 then
      if !rest.isEmpty && rest.all isDigitChar then .ok (-(digitsToNat rest : Int))
      else .error ("invalid literal for int() with base 10: \x27" ++ s ++ "\x27")
    else if c == Char.ofNat 43 then
      if !rest.isEmpty && rest.all isDigitChar then .ok (digitsToNat rest)
      else .error ("invidal literal for int() with base 10: \x27" ++ s ++ "\x27")
    else
      if !(c :: rest).isEmpty && (c :: rest).all isDigitChar then .ok (digitsToNat (c :: rest))
      else .error ("invalid literal for int() with base 10: \x27" ++ s ++ "\x27")

/-- Python `int(x)` on a cell. -/
def Cell.pyInt : Cell → Except String Int
  | .na => .error "cannot convert float NaN to integer"
  | .str s => pyIntOfString s
  | .num n => .ok n

/-- Unsigned part of Python `int(float(s))`: digits with an optional fraction,
truncated toward zero. -/
def parseUnsignedFloatTrunc (ds : List Char) : Option Nat :=
  let intPart := ds.takeWhile (fun c => !(c == Char.ofNat 46))
  let rest := ds.dropWhile (fun c => !(c == Char.ofNat 46))
  match rest with
  | [] =>
    if !intPart.isEmpty && intPart.all isDigitChar then some (digitsToNat intPart) else none
  | _ :: frac =>
    if (!intPart.isEmpty || !frac.isEmpty) && intPart.all isDigitChar && frac.all isDigitChar
    then some (digitsToNat intPart) else none

/-- Python `int(float(s))`: parse as a decimal number, truncate toward zero. -/
def pyFloatTruncOfString (s : String) : Except String Int :=
  match trimChars s.data with
  | [] => .error ("could not convert string to float: \x27" ++ s ++ "\x27")
  | c :: rest =>
    if c == Char.ofNat 45 then
      match parseUnsignedFloatTrunc rest with
      | some v => .ok (-(v : Int))
      | none => .error ("could not convert string to float: \x27" ++ s ++ "\x27")
    else if c == Char.ofNat 43 then
      match parseUnsignedFloatTrunc rest with
      | some v => .ok (v : Int)
      | none => .error ("could not convert string to float: \x27" ++ s ++ "\x27")
    else
      match parseUnsignedFloatTrunc (c :: rest) with
      | some v => .ok (v : Int)
      | none => .error ("could not convert string to float: \x27" ++ s ++ "\x27")

/-- Python `str(int(float(s)))`. -/
def pyStrIntFloat (s : String) : Except String String :=
  match pyFloatTruncOfString s with
  | .error e => .error e
  | .ok k => .ok (intRepr k)

/-- A data frame: ordered column names plus rows. -/
structure DF where
  cols : List String
  rows : List Row

/-- The statistics dictionary returned by `process_files`. -/
structure Stats where
  directskip_records : Nat
  landportal_records : Nat
  total_merged : Nat
  total_mobile_phones : Nat
  total_residential_phones : Nat
  roor_count : Nat
  readymode_count : Nat
deriving DecidableEq

/-- Required DirectSkip columns (source line 141). -/
def directskipRequired : List String :=
  ["Input Custom Field 1", "Matched First Name", "Matched Last Name"]

/-- Required Land Portal columns (source lines 147-148). -/
def landportalRequired : List String :=
  ["propertyID", "Latitude", "Longitude", "Hyperlink", "Parcel Full Address",
   "Parcel City", "Parcel State", "Parcel Zip", "APN", "Parcel County", "Calc Acreage"]

/-- The phone-column test of `validate_columns` (source line 154):
`col.startswith('Phone') and col[5:].isdigit()`. -/
def isPhoneNumberCol (c : String) : Bool :=
  "Phone".data.isPrefixOf c.data && pyIsdigit ⟨c.data.drop 5⟩

/-- Embedding of `validate_columns` (source lines 136-158): collect one error
string per missing DirectSkip column, per missing Land Portal column, and one
error if no phone-number column exists. -/
def validateColumns (dfDirectskip dfLandportal : DF) : List String :=
  let e1 := (directskipRequired.filter (fun c => !dfDirectskip.cols.contains c)).map
    (fun c => "DirectSkip file missing column: \x27" ++ c ++ "\x27")
  let e2 := (landportalRequired.filter (fun c => !dfLandportal.cols.contains c)).map
    (fun c => "Land Portal file missing column: \x27" ++ c ++ "\x27")
  let phoneCols := dfDirectskip.cols.filter isPhoneNumberCol
  e1 ++ e2 ++
    (if phoneCols.isEmpty then
      ["DirectSkip file missing phone number columns (Phone1, Phone2, etc.)"]
    else [])

/-- The phone indices scanned by the extractor and the counters:
`range(1, 8)` in the source. -/
def phoneIdxs : List Nat := [1, 2, 3, 4, 5, 6, 7]

/-- Column name `Phone{i}`. -/
def phoneNumCol (i : Nat) : String := "Phone" ++ natRepr i

/-- Column name `Phone{i} Type`. -/
def phoneTypeCol (i : Nat) : String := "Phone" ++ natRepr i ++ " Type"

/-- The cell `row.get(f"Phone{i}")` (default `None`, i.e. `na`). -/
def phoneNumCell (row : Row) (i : Nat) : Cell := rowGet row (phoneNumCol i) .na

/-- The normalized phone type of index `i`: `str(row.get(f"Phone{i} Type",
'')).strip()` when not NaN, else the empty string (source lines 173-179). -/
def phoneTypeNorm (row : Row) (i : Nat) : String :=
  let c := rowGet row (phoneTypeCol i) (.str "")
  if c.notna then pyStrip c.pyStr else ""

/-- The classified mobile/residential phone lists of one row. -/
structure Phones where
  mobile : List String
  residential : List String
deriving DecidableEq

/-- One iteration of the extraction loop of `get_phone_data`
(source lines 168-185). -/
def classifyStep (row : Row) (ph : Phones) (i : Nat) : Except String Phones :=
  let phoneNum := phoneNumCell row i
  let phoneType := phoneTypeNorm row i
  if phoneNum.notna && phoneNum.neEmpty then
    if pyLower phoneType == "mobile" then
      match phoneNum.pyInt with
      | .error e => .error e
      | .ok n => .ok { ph with mobile := ph.mobile ++ [intRepr n] }
    else if pyLower phoneType == "residential" then
      match phoneNum.pyInt with
      | .error e => .error e
      | .ok n => .ok { ph with residential := ph.residential ++ [intRepr n] }
    else .ok ph
  else .ok ph

/-- The extraction loop over a list of phone indices; a raised coercion
exception aborts the loop. -/
def classifyFold (row : Row) : Phones → List Nat → Except String Phones
  | ph, [] => .ok ph
  | ph, i :: rest =>
    match classifyStep row ph i with
    | .error e => .error e
    | .ok ph2 => classifyFold row ph2 rest

/-- `get_phone_data` on a single row: scan Phone1..Phone7. -/
def getPhonesRow (row : Row) : Except String Phones :=
  classifyFold row ⟨[], []⟩ phoneIdxs

/-- `get_phone_data` (source lines 160-189): classified phones of every row,
in row order; an exception in any row aborts the whole call. -/
def getPhoneData : List Row → Except String (List Phones)
  | [] => .ok []
  | row :: rest =>
    match getPhonesRow row with
    | .error e => .error e
    | .ok ph =>
      match getPhoneData rest with
      | .error e => .error e
      | .ok rest2 => .ok (ph :: rest2)

/-- One iteration of the phone-counting loop of `process_files`
(source lines 205-220): same classification conditions, no coercion. -/
def countStep (row : Row) (acc : Nat × Nat) (i : Nat) : Nat × Nat :=
  let phoneNum := phoneNumCell row i
  let phoneType := phoneTypeNorm row i
  if phoneNum.notna && phoneNum.neEmpty then
    if pyLower phoneType == "mobile" then (acc.1 + 1, acc.2)
    else if pyLower phoneType == "residential" then (acc.1, acc.2 + 1)
    else acc
  else acc

/-- The phone-counting loop of `process_files` over the full DirectSkip table:
(total mobile, total residential). -/
def countPhones (rows : List Row) : Nat × Nat :=
  rows.foldl (fun acc row => phoneIdxs.foldl (countStep row) acc) (0, 0)

/-- `pd.merge(df_directskip, df_landportal, left_on='Input Custom Field 1',
right_on='propertyID', how='inner')` (source lines 223-229): inner equi-join,
left-table-outer iteration order, each matching pair combined once. -/
def mergeInner (dfD dfL : List Row) : List Row :=
  dfD.flatMap (fun r1 =>
    (dfL.filter (fun r2 =>
      rowGet r2 "propertyID" .na == rowGet r1 "Input Custom Field 1" .na)).map
      (fun r2 => r1 ++ r2))

/-- One output phone slot: `str(int(float(phones[k]))) if len(phones) > k and
phones[k] != '' else ''` (source lines 278-280 and 293-298). -/
def phoneSlot (phones : List String) (k : Nat) : Except String String :=
  if h : k < phones.length then
    if phones.get ⟨k, h⟩ == "" then .ok ""
    else pyStrIntFloat (phones.get ⟨k, h⟩)
  else .ok ""

/-- Embedding of `create_roor_record` (source lines 268-285): a fixed 13-key
record; missing source columns default to the empty string. -/
def createRoorRecord (row : Row) (mobilePhones : List String) : Except String Rec :=
  match phoneSlot mobilePhones 0 with
  | .error e => .error e
  | .ok p1 =>
    match phoneSlot mobilePhones 1 with
    | .error e => .error e
    | .ok p2 =>
      match phoneSlot mobilePhones 2 with
      | .error e => .error e
      | .ok p3 =>
        .ok [("FirstName", rowGet row "Matched First Name" (.str "")),
             ("LastName", rowGet row "Matched Last Name" (.str "")),
             ("Email", rowGet row "Hyperlink" (.str "")),
             ("PropertyAddress", rowGet row "Parcel Full Address" (.str "")),
             ("PropertyCity", rowGet row "Parcel City" (.str "")),
             ("PropertyState", rowGet row "Parcel State" (.str "")),
             ("PropertyZip", rowGet row "Parcel Zip" (.str "")),
             ("Phone1", .str p1),
             ("Phone2", .str p2),
             ("Phone3", .str p3),
             ("APN", rowGet row "APN" (.str "")),
             ("PropertyCounty", rowGet row "Parcel County" (.str "")),
             ("Acreage", rowGet row "Calc Acreage" (.str ""))]

/-- Python dict assignment `record[k] = v` on an insertion-ordered record:
overwrite in place if the key exists, else append. -/
def odInsert (r : Rec) (k : String) (v : Cell) : Rec :=
  if r.any (fun p => p.1 == k) then
    r.map (fun p => if p.1 == k then (k, v) else p)
  else r ++ [(k, v)]

/-- Embedding of `create_readymode_record` (source lines 287-312): four phone
slots, the Google Maps URL, then every Land Portal column in original order. -/
def createReadymodeRecord (row : Row) (residentialPhones : List String)
    (landportalColumns : List String) : Except String Rec :=
  match phoneSlot residentialPhones 0 with
  | .error e => .error e
  | .ok s1 =>
    match phoneSlot residentialPhones 1 with
    | .error e => .error e
    | .ok s2 =>
      match phoneSlot residentialPhones 2 with
      | .error e => .error e
      | .ok s3 =>
        match phoneSlot residentialPhones 3 with
        | .error e => .error e
        | .ok s4 =>
          let r4 : Rec :=
            odInsert (odInsert (odInsert (odInsert [] "Phone1" (.str s1))
              "Phone2" (.str s2)) "Phone3" (.str s3)) "Phone4" (.str s4)
          let lat := rowGet row "Latitude" (.str "")
          let lon := rowGet row "Longitude" (.str "")
          let url :=
            if lat.notna && lon.notna && lat.neEmpty && lon.neEmpty then
              "http://maps.google.com/maps?z=16&t=m&q=" ++ lat.pyStr ++ "," ++ lon.pyStr
            else ""
          let r5 := odInsert r4 "Google Maps URL" (.str url)
          .ok (landportalColumns.foldl
            (fun rc c => odInsert rc c (rowGet row c (.str ""))) r5)

/-- The per-row projection loop of `process_files` (source lines 238-249):
append a RooR record when the mobile list is nonempty and a ReadyMode record
when the residential list is nonempty. -/
def projectLoop (landportalColumns : List String) :
    List (Row × Phones) → List Rec → List Rec → Except String (List Rec × List Rec)
  | [], roorAcc, rmAcc => .ok (roorAcc, rmAcc)
  | (row, ph) :: rest, roorAcc, rmAcc =>
    match
      (if ph.mobile.isEmpty then (.ok roorAcc : Except String (List Rec))
       else
         match createRoorRecord row ph.mobile with
         | .error e => .error e
         | .ok r => .ok (roorAcc ++ [r])) with
    | .error e => .error e
    | .ok roorAcc2 =>
      match
        (if ph.residential.isEmpty then (.ok rmAcc : Except String (List Rec))
         else
           match createReadymodeRecord row ph.residential landportalColumns with
           | .error e => .error e
           | .ok r => .ok (rmAcc ++ [r])) with
      | .error e => .error e
      | .ok rmAcc2 => projectLoop landportalColumns rest roorAcc2 rmAcc2

/-- Embedding of `process_files` (source lines 191-266): counts, merge,
per-row extraction, projection, and the statistics dictionary. -/
def processFiles (dfDirectskip dfLandportal : DF) :
    Except String (List Rec × List Rec × Stats) :=
  let directskipCount := dfDirectskip.rows.length
  let landportalCount := dfLandportal.rows.length
  let landportalColumns := dfLandportal.cols
  let phoneCounts := countPhones dfDirectskip.rows
  let merged := mergeInner dfDirectskip.rows dfLandportal.rows
  match getPhoneData merged with
  | .error e => .error e
  | .ok phoneData =>
    match projectLoop landportalColumns (merged.zip phoneData) [] [] with
    | .error e => .error e
    | .ok outs =>
      .ok (outs.1, outs.2,
        { directskip_records := directskipCount,
          landportal_records := landportalCount,
          total_merged := merged.length,
          total_mobile_phones := phoneCounts.1,
          total_residential_phones := phoneCounts.2,
          roor_count := outs.1.length,
          readymode_count := outs.2.length })

/-- Per-cell emission of `convert_df_to_csv` / `df.to_csv`: NaN is written as
the empty string (pandas default `na_rep`), strings verbatim, numbers in
decimal. -/
def emitCell : Cell → String
  | .na => ""
  | .str s => s
  | .num n => intRepr n

/-! ### Specification-side derived definitions (for stating the claims) -/

/-- `true` when the phone number of index `i` is present: not NaN and not the
empty string. -/
def phonePresent (row : Row) (i : Nat) : Bool :=
  (phoneNumCell row i).notna && (phoneNumCell row i).neEmpty

/-- `true` when index `i` has a present phone number whose trimmed, lowercased
type equals `t`. -/
def classifiesAs (row : Row) (i : Nat) (t : String) : Bool :=
  phonePresent row i && (pyLower (phoneTypeNorm row i) == t)

/-- The normalized string the extractor appends for index `i` (meaningful when
the coercion succeeds). -/
def coercedStr (row : Row) (i : Nat) : String :=
  match (phoneNumCell row i).pyInt with
  | .ok n => intRepr n
  | .error _ => ""

/-- The mobile list predicted by the classification rule: indices 1..7 in
ascending order, filtered to present numbers typed "mobile". -/
def mobileListSpec (row : Row) : List String :=
  (phoneIdxs.filter (fun i => classifiesAs row i "mobile")).map (coercedStr row)

/-- The residential list predicted by the classification rule. -/
def residentialListSpec (row : Row) : List String :=
  (phoneIdxs.filter (fun i => classifiesAs row i "residential")).map (coercedStr row)

/-- `Except.isOk` as a plain boolean. -/
def exceptIsOk : Except String Int → Bool
  | .ok _ => true
  | .error _ => false

/-- Coercion-success hypothesis for one row: every phone that the extractor
would classify coerces to an integer. -/
def rowCoercible (row : Row) : Prop :=
  ∀ i ∈ phoneIdxs,
    (classifiesAs row i "mobile" || classifiesAs row i "residential") = true →
    exceptIsOk (phoneNumCell row i).pyInt = true

instance (row : Row) : Decidable (rowCoercible row) := by
  unfold rowCoercible; infer_instance

/-- The pure RooR record produced when all three phone-slot coercions succeed:
the first three mobile numbers, padded with the empty string. -/
def roorRecordPure (row : Row) (mobilePhones : List String) : Rec :=
  [("FirstName", rowGet row "Matched First Name" (.str "")),
   ("LastName", rowGet row "Matched Last Name" (.str "")),
   ("Email", rowGet row "Hyperlink" (.str "")),
   ("PropertyAddress", rowGet row "Parcel Full Address" (.str "")),
   ("PropertyCity", rowGet row "Parcel City" (.str "")),
   ("PropertyState", rowGet row "Parcel State" (.str "")),
   ("PropertyZip", rowGet row "Parcel Zip" (.str "")),
   ("Phone1", .str (mobilePhones.getD 0 "")),
   ("Phone2", .str (mobilePhones.getD 1 "")),
   ("Phone3", .str (mobilePhones.getD 2 "")),
   ("APN", rowGet row "APN" (.str "")),
   ("PropertyCounty", rowGet row "Parcel County" (.str "")),
   ("Acreage", rowGet row "Calc Acreage" (.str ""))]

/-- The pure ReadyMode record produced when all phone-slot coercions succeed. -/
def rmRecordPure (row : Row) (residentialPhones : List String)
    (landportalColumns : List String) : Rec :=
  let lat := rowGet row "Latitude" (.str "")
  let lon := rowGet row "Longitude" (.str "")
  let url :=
    if lat.notna && lon.notna && lat.neEmpty && lon.neEmpty then
      "http://maps.google.com/maps?z=16&t=m&q=" ++ lat.pyStr ++ "," ++ lon.pyStr
    else ""
  landportalColumns.foldl (fun rc c => odInsert rc c (rowGet row c (.str "")))
    [("Phone1", .str (residentialPhones.getD 0 "")),
     ("Phone2", .str (residentialPhones.getD 1 "")),
     ("Phone3", .str (residentialPhones.getD 2 "")),
     ("Phone4", .str (residentialPhones.getD 3 "")),
     ("Google Maps URL", .str url)]

/-- All strings in both classified lists are decimal integer strings. -/
def phonesWF (ph : Phones) : Prop :=
  (∀ s ∈ ph.mobile, ∃ k : Int, s = intRepr k) ∧
  (∀ s ∈ ph.residential, ∃ k : Int, s = intRepr k)

/-- RooR output predicted for a list of (row, phones) pairs: one record per
pair with a nonempty mobile list. -/
def roorOutsSpec (pairs : List (Row × Phones)) : List Rec :=
  pairs.filterMap (fun rp =>
    if rp.2.mobile.isEmpty then none else some (roorRecordPure rp.1 rp.2.mobile))

/-- ReadyMode output predicted for a list of (row, phones) pairs: one record
per pair with a nonempty residential list. -/
def rmOutsSpec (landportalColumns : List String) (pairs : List (Row × Phones)) : List Rec :=
  pairs.filterMap (fun rp =>
    if rp.2.residential.isEmpty then none
    else some (rmRecordPure rp.1 rp.2.residential landportalColumns))

/-- Claim-side mobile total: over every contact row, the number of phone
indices classified "mobile". -/
def mobileCountSpec (rows : List Row) : Nat :=
  (rows.map (fun row => (phoneIdxs.filter (fun i => classifiesAs row i "mobile")).length)).sum

/-- Claim-side residential total. -/
def residentialCountSpec (rows : List Row) : Nat :=
  (rows.map (fun row => (phoneIdxs.filter (fun i => classifiesAs row i "residential")).length)).sum

/-- C5's phone-column pattern as the claim words it: "Phone" followed by a
positive integer with no other suffix. -/
def specPhonePosIntCol (c : String) : Bool :=
  "Phone".data.isPrefixOf c.data && pyIsdigit ⟨c.data.drop 5⟩ &&
    decide (0 < digitsToNat (c.data.drop 5))

/-- `true` when the pipeline result is an error (a raised exception). -/
def pipelineIsError : Except String (List Rec × List Rec × Stats) → Bool
  | .ok _ => false
  | .error _ => true

/-- A row with a classified phone whose value cannot be coerced to an
integer. -/
def rowBadPhone (row : Row) : Bool :=
  phoneIdxs.any (fun i =>
    (classifiesAs row i "mobile" || classifiesAs row i "residential") &&
    !exceptIsOk (phoneNumCell row i).pyInt)

/-! ### Character and digit-string lemmas -/

theorem charBeqFalse (c d : Char) (h : c.toNat ≠ d.toNat) : (c == d) = false := by
  cases hcd : c == d with
  | false => rfl
  | true => exact absurd (congrArg Char.toNat (eq_of_beq hcd)) h

theorem digitChar_toNat (d : Nat) (hd : d < 10) : (digitChar d).toNat = 48 + d := by
  interval_cases d <;> decide

theorem isDigitChar_digitChar (d : Nat) (hd : d < 10) : isDigitChar (digitChar d) = true := by
  simp only [isDigitChar, digitChar_toNat d hd, Bool.and_eq_true, decide_eq_true_eq]
  omega

theorem isDigitChar_toNat (c : Char) (h : isDigitChar c = true) :
    48 ≤ c.toNat ∧ c.toNat ≤ 57 := by
  simp only [isDigitChar, Bool.and_eq_true, decide_eq_true_eq] at h
  exact h

theorem isSpaceChar_of_digit (c : Char) (h : isDigitChar c = true) :
    isSpaceChar c = false := by
  obtain ⟨h1, h2⟩ := isDigitChar_toNat c h
  simp only [isSpaceChar, Bool.or_eq_false_iff, beq_eq_false_iff_ne, ne_eq]
  omega

theorem dropWhile_eq_self_of {α : Type} (p : α → Bool) (l : List α)
    (h : ∀ c ∈ l, p c = false) : l.dropWhile p = l := by
  cases l with
  | nil => rfl
  | cons a t => simp [List.dropWhile, h a (by simp)]

theorem takeWhile_eq_self_of {α : Type} (p : α → Bool) (l : List α)
    (h : ∀ c ∈ l, p c = true) : l.takeWhile p = l := by
  induction l with
  | nil => rfl
  | cons a t ih =>
    simp only [List.takeWhile, h a (by simp)]
    exact congrArg (a :: ·) (ih (fun c hc => h c (by simp [hc])))

theorem dropWhile_eq_nil_of {α : Type} (p : α → Bool) (l : List α)
    (h : ∀ c ∈ l, p c = true) : l.dropWhile p = [] := by
  induction l with
  | nil => rfl
  | cons a t ih =>
    simp only [List.dropWhile, h a (by simp)]
    exact ih (fun c hc => h c (by simp [hc]))

theorem trimChars_eq_self (l : List Char) (h : ∀ c ∈ l, isSpaceChar c = false) :
    trimChars l = l := by
  unfold trimChars
  rw [dropWhile_eq_self_of _ _ h,
      dropWhile_eq_self_of _ _ (fun c hc => h c (List.mem_reverse.mp hc)),
      List.reverse_reverse]

theorem natDigitsGo_congr : ∀ f1 : Nat, ∀ f2 n : Nat, n < f1 → n < f2 →
    natDigitsGo f1 n = natDigitsGo f2 n := by
  intro f1
  induction f1 with
  | zero => intro f2 n h1 _; omega
  | succ f ih =>
    intro f2 n h1 h2
    cases f2 with
    | zero => omega
    | succ g =>
      simp only [natDigitsGo]
      by_cases h10 : n < 10
      · simp [h10]
      · have hdiv : n / 10 < n := Nat.div_lt_self (by omega) (by omega)
        simp only [h10, if_false]
        rw [ih g (n / 10) (by omega) (by omega)]

theorem natDigits_unfold (n : Nat) : natDigits n =
    if n < 10 then [digitChar n] else natDigits (n / 10) ++ [digitChar (n % 10)] := by
  show natDigitsGo (n + 1) n = _
  by_cases h10 : n < 10
  · simp [natDigitsGo, h10]
  · have hdiv : n / 10 < n := Nat.div_lt_self (by omega) (by omega)
    simp only [natDigitsGo, h10, if_false]
    rw [natDigitsGo_congr n (n / 10 + 1) (n / 10) (by omega) (by omega)]
    rfl

theorem natDigits_ne_nil (n : Nat) : natDigits n ≠ [] := by
  rw [natDigits_unfold]
  by_cases h10 : n < 10 <;> simp [h10]

theorem natDigits_all_digit (n : Nat) : ∀ c ∈ natDigits n, isDigitChar c = true := by
  induction n using Nat.strong_induction_on with
  | _ n ih =>
    rw [natDigits_unfold]
    by_cases h10 : n < 10
    · simp only [h10, if_true, List.mem_singleton]
      rintro c rfl
      exact isDigitChar_digitChar n h10
    · have hdiv : n / 10 < n := Nat.div_lt_self (by omega) (by omega)
      simp only [h10, if_false, List.mem_append, List.mem_singleton]
      rintro c (hc | rfl)
      · exact ih (n / 10) hdiv c hc
      · exact isDigitChar_digitChar (n % 10) (Nat.mod_lt n (by omega))

theorem digitsToNat_append_digit (l : List Char) (c : Char) :
    digitsToNat (l ++ [c]) = 10 * digitsToNat l + (c.toNat - 48) := by
  simp only [digitsToNat, List.foldl_append, List.foldl_cons, List.foldl_nil]
  omega

theorem digitsToNat_natDigits (n : Nat) : digitsToNat (natDigits n) = n := by
  induction n using Nat.strong_induction_on with
  | _ n ih =>
    rw [natDigits_unfold]
    by_cases h10 : n < 10
    · simp only [h10, if_true, digitsToNat, List.foldl_cons, List.foldl_nil,
        digitChar_toNat n h10]
      omega
    · have hdiv : n / 10 < n := Nat.div_lt_self (by omega) (by omega)
      simp only [h10, if_false, digitsToNat_append_digit, ih (n / 10) hdiv,
        digitChar_toNat (n % 10) (Nat.mod_lt n (by omega))]
      omega

theorem intRepr_data : ∀ k : Int, (intRepr k).data =
    match k with
    | Int.ofNat n => natDigits n
    | Int.negSucc m => Char.ofNat 45 :: natDigits (m + 1) := by
  intro k
  cases k <;> rfl

theorem intRepr_ne_empty (k : Int) : intRepr k ≠ "" := by
  intro h
  have hd : (intRepr k).data = [] := by rw [h]
  rw [intRepr_data] at hd
  cases k with
  | ofNat n => exact natDigits_ne_nil n hd
  | negSucc m => exact List.noConfusion hd

theorem natDigits_isEmpty (n : Nat) : (natDigits n).isEmpty = false := by
  cases h : natDigits n with
  | nil => exact absurd h (natDigits_ne_nil n)
  | cons a t => rfl

theorem parseUnsignedFloatTrunc_natDigits (n : Nat) :
    parseUnsignedFloatTrunc (natDigits n) = some n := by
  have hnotdot : ∀ c ∈ natDigits n, (!(c == Char.ofNat 46)) = true := by
    intro c hc
    have h1 := isDigitChar_toNat c (natDigits_all_digit n c hc)
    have h46 : (Char.ofNat 46).toNat = 46 := rfl
    rw [charBeqFalse c (Char.ofNat 46) (by omega)]
    decide
  have hall : (natDigits n).all isDigitChar = true :=
    List.all_eq_true.mpr (natDigits_all_digit n)
  simp only [parseUnsignedFloatTrunc]
  rw [takeWhile_eq_self_of _ _ hnotdot, dropWhile_eq_nil_of _ _ hnotdot]
  simp only [natDigits_isEmpty, hall, Bool.not_false, Bool.true_and, if_true,
    digitsToNat_natDigits]

theorem trimChars_natDigits (n : Nat) : trimChars (natDigits n) = natDigits n :=
  trimChars_eq_self _ (fun c hc => isSpaceChar_of_digit c (natDigits_all_digit n c hc))

theorem pyFloatTruncOfString_ofDigits (s : String) (n : Nat)
    (h : trimChars s.data = natDigits n) : pyFloatTruncOfString s = .ok (n : Int) := by
  obtain ⟨c, rest, hcr⟩ := List.exists_cons_of_ne_nil (natDigits_ne_nil n)
  have hc : isDigitChar c = true := by
    apply natDigits_all_digit n; rw [hcr]; simp
  have hb := isDigitChar_toNat c hc
  have h45 : (c == Char.ofNat 45) = false := by
    have e : (Char.ofNat 45).toNat = 45 := rfl
    exact charBeqFalse c _ (by omega)
  have h43 : (c == Char.ofNat 43) = false := by
    have e : (Char.ofNat 43).toNat = 43 := rfl
    exact charBeqFalse c _ (by omega)
  have hp : parseUnsignedFloatTrunc (c :: rest) = some n := by
    rw [← hcr, parseUnsignedFloatTrunc_natDigits]
  unfold pyFloatTruncOfString
  rw [h, hcr]
  simp only [h45, h43, Bool.false_eq_true, if_false, hp]

theorem pyStrIntFloat_intRepr (k : Int) : pyStrIntFloat (intRepr k) = .ok (intRepr k) := by
  cases k with
  | ofNat n =>
    have hdata : (intRepr (Int.ofNat n)).data = natDigits n := intRepr_data _
    have hf : pyFloatTruncOfString (intRepr (Int.ofNat n)) = .ok (n : Int) :=
      pyFloatTruncOfString_ofDigits _ n (by rw [hdata, trimChars_natDigits])
    unfold pyStrIntFloat
    rw [hf]
    rfl
  | negSucc m =>
    have hdata : (intRepr (Int.negSucc m)).data = Char.ofNat 45 :: natDigits (m + 1) :=
      intRepr_data _
    have htrim : trimChars (intRepr (Int.negSucc m)).data =
        Char.ofNat 45 :: natDigits (m + 1) := by
      rw [hdata]
      apply trimChars_eq_self
      intro c hc
      rcases List.mem_cons.mp hc with rfl | hc2
      · decide
      · exact isSpaceChar_of_digit c (natDigits_all_digit (m + 1) c hc2)
    have hp : parseUnsignedFloatTrunc (natDigits (m + 1)) = some (m + 1) :=
      parseUnsignedFloatTrunc_natDigits (m + 1)
    have hneg : -((m + 1 : Nat) : Int) = Int.negSucc m := by
      rw [Int.negSucc_eq]; push_cast; ring
    unfold pyStrIntFloat pyFloatTruncOfString
    rw [htrim]
    simp only [beq_self_eq_true, if_true, hp, hneg]

/-! ### Record-builder lemmas -/

theorem phoneSlot_ok (phones : List String) (k : Nat)
    (h : ∀ s ∈ phones, ∃ j : Int, s = intRepr j) :
    phoneSlot phones k = .ok (phones.getD k "") := by
  unfold phoneSlot
  by_cases hk : k < phones.length
  · obtain ⟨j, hj⟩ := h (phones.get ⟨k, hk⟩) (phones.get_mem k hk)
    have hne : ¬((phones.get ⟨k, hk⟩ == "") = true) := by
      rw [hj]
      simp [intRepr_ne_empty j]
    rw [dif_pos hk, if_neg hne, hj, pyStrIntFloat_intRepr, ← hj,
      List.getD_eq_getElem phones "" hk]
    simp [List.get_eq_getElem]
  · rw [dif_neg hk, List.getD_eq_default phones "" (Nat.le_of_not_lt hk)]

theorem createRoorRecord_ok (row : Row) (m : List String)
    (h : ∀ s ∈ m, ∃ j : Int, s = intRepr j) :
    createRoorRecord row m = .ok (roorRecordPure row m) := by
  unfold createRoorRecord
  rw [phoneSlot_ok m 0 h, phoneSlot_ok m 1 h, phoneSlot_ok m 2 h]
  rfl

theorem createReadymodeRecord_ok (row : Row) (r : List String) (cols : List String)
    (h : ∀ s ∈ r, ∃ j : Int, s = intRepr j) :
    createReadymodeRecord row r cols = .ok (rmRecordPure row r cols) := by
  unfold createReadymodeRecord
  rw [phoneSlot_ok r 0 h, phoneSlot_ok r 1 h, phoneSlot_ok r 2 h, phoneSlot_ok r 3 h]
  rfl

/-! ### Classification lemmas -/

theorem classifiesAs_mobile_not_residential (row : Row) (i : Nat)
    (h : classifiesAs row i "mobile" = true) :
    classifiesAs row i "residential" = false := by
  unfold classifiesAs at *
  rcases Bool.and_eq_true_iff.mp h with ⟨h1, h2⟩
  have he : pyLower (phoneTypeNorm row i) = "mobile" := eq_of_beq h2
  rw [h1, he]
  decide

theorem classifyStep_mobile (row : Row) (ph : Phones) (i : Nat) (n : Int)
    (hcls : classifiesAs row i "mobile" = true)
    (hpy : (phoneNumCell row i).pyInt = .ok n) :
    classifyStep row ph i = .ok { ph with mobile := ph.mobile ++ [intRepr n] } := by
  rcases Bool.and_eq_true_iff.mp hcls with ⟨h1, h2⟩
  unfold classifyStep
  unfold phonePresent at h1
  simp only [h1, h2, if_true, hpy]

theorem classifyStep_residential (row : Row) (ph : Phones) (i : Nat) (n : Int)
    (hcls : classifiesAs row i "residential" = true)
    (hpy : (phoneNumCell row i).pyInt = .ok n) :
    classifyStep row ph i = .ok { ph with residential := ph.residential ++ [intRepr n] } := by
  rcases Bool.and_eq_true_iff.mp hcls with ⟨h1, h2⟩
  have hmob : (pyLower (phoneTypeNorm row i) == "mobile") = false := by
    have he : pyLower (phoneTypeNorm row i) = "residential" := eq_of_beq h2
    rw [he]
    decide
  unfold classifyStep
  unfold phonePresent at h1
  simp only [h1, h2, hmob, if_true, Bool.false_eq_true, if_false, hpy]

theorem classifyStep_none (row : Row) (ph : Phones) (i : Nat)
    (hm : classifiesAs row i "mobile" = false)
    (hr : classifiesAs row i "residential" = false) :
    classifyStep row ph i = .ok ph := by
  unfold classifyStep
  by_cases h1 : ((phoneNumCell row i).notna && (phoneNumCell row i).neEmpty) = true
  · have hm2 : (pyLower (phoneTypeNorm row i) == "mobile") = false := by
      unfold classifiesAs phonePresent at hm
      rcases Bool.and_eq_false_iff.mp hm with h | h
      · exact absurd h1 (by rw [h]; decide)
      · exact h
    have hr2 : (pyLower (phoneTypeNorm row i) == "residential") = false := by
      unfold classifiesAs phonePresent at hr
      rcases Bool.and_eq_false_iff.mp hr with h | h
      · exact absurd h1 (by rw [h]; decide)
      · exact h
    simp only [h1, if_true, hm2, hr2, Bool.false_eq_true, if_false]
  · simp only [Bool.not_eq_true] at h1
    simp only [h1, Bool.false_eq_true, if_false]

theorem classifyFold_spec (row : Row) (idxs : List Nat) : ∀ ph : Phones,
    (∀ i ∈ idxs,
      (classifiesAs row i "mobile" || classifiesAs row i "residential") = true →
      exceptIsOk (phoneNumCell row i).pyInt = true) →
    classifyFold row ph idxs =
      .ok ⟨ph.mobile ++ (idxs.filter (fun i => classifiesAs row i "mobile")).map (coercedStr row),
           ph.residential ++
             (idxs.filter (fun i => classifiesAs row i "residential")).map (coercedStr row)⟩ := by
  induction idxs with
  | nil => intro ph _; simp [classifyFold]
  | cons i rest ih =>
    intro ph h
    by_cases hm : classifiesAs row i "mobile" = true
    · have hok := h i (by simp) (by simp [hm])
      cases hpy : (phoneNumCell row i).pyInt with
      | error e => rw [hpy] at hok; exact absurd hok (by simp [exceptIsOk])
      | ok n =>
        have hr := classifiesAs_mobile_not_residential row i hm
        have hco : coercedStr row i = intRepr n := by simp [coercedStr, hpy]
        have hunfold : classifyFold row ph (i :: rest) =
            (match classifyStep row ph i with
             | .error e => .error e
             | .ok ph2 => classifyFold row ph2 rest : Except String Phones) := rfl
        rw [hunfold, classifyStep_mobile row ph i n hm hpy]
        show classifyFold row _ rest = _
        rw [ih _ (fun j hj => h j (by simp [hj]))]
        simp [List.filter_cons, hm, hr, hco, List.append_assoc]
    · by_cases hres : classifiesAs row i "residential" = true
      · have hok := h i (by simp) (by simp [hres])
        cases hpy : (phoneNumCell row i).pyInt with
        | error e => rw [hpy] at hok; exact absurd hok (by simp [exceptIsOk])
        | ok n =>
          have hco : coercedStr row i = intRepr n := by simp [coercedStr, hpy]
          have hunfold : classifyFold row ph (i :: rest) =
              (match classifyStep row ph i with
               | .error e => .error e
               | .ok ph2 => classifyFold row ph2 rest : Except String Phones) := rfl
          rw [hunfold, classifyStep_residential row ph i n hres hpy]
          show classifyFold row _ rest = _
          rw [ih _ (fun j hj => h j (by simp [hj]))]
          have hm2 : classifiesAs row i "mobile" = false := by simpa using hm
          simp [List.filter_cons, hres, hm2, hco, List.append_assoc]
      · have hm2 : classifiesAs row i "mobile" = false := by simpa using hm
        have hr2 : classifiesAs row i "residential" = false := by simpa using hres
        have hunfold : classifyFold row ph (i :: rest) =
            (match classifyStep row ph i with
             | .error e => .error e
             | .ok ph2 => classifyFold row ph2 rest : Except String Phones) := rfl
        rw [hunfold, classifyStep_none row ph i hm2 hr2]
        show classifyFold row ph rest = _
        rw [ih ph (fun j hj => h j (by simp [hj]))]
        simp [List.filter_cons, hm2, hr2]

theorem getPhonesRow_spec (row : Row) (h : rowCoercible row) :
    getPhonesRow row = .ok ⟨mobileListSpec row, residentialListSpec row⟩ := by
  unfold getPhonesRow mobileListSpec residentialListSpec
  rw [classifyFold_spec row phoneIdxs ⟨[], []⟩ h]
  simp

/-! ### Well-formedness of extracted phone lists -/

theorem classifyStep_wf (row : Row) (ph ph2 : Phones) (i : Nat)
    (hwf : phonesWF ph) (h : classifyStep row ph i = .ok ph2) : phonesWF ph2 := by
  unfold classifyStep at h
  by_cases h1 : ((phoneNumCell row i).notna && (phoneNumCell row i).neEmpty) = true
  · rw [if_pos h1] at h
    by_cases h2 : (pyLower (phoneTypeNorm row i) == "mobile") = true
    · rw [if_pos h2] at h
      cases hpy : (phoneNumCell row i).pyInt with
      | error e => rw [hpy] at h; exact Except.noConfusion h
      | ok n =>
        rw [hpy] at h
        obtain rfl : ({ ph with mobile := ph.mobile ++ [intRepr n] } : Phones) = ph2 :=
          Except.ok.inj h
        refine ⟨?_, hwf.2⟩
        intro s hs
        rcases List.mem_append.mp hs with hs1 | hs1
        · exact hwf.1 s hs1
        · exact ⟨n, (List.mem_singleton.mp hs1)⟩
    · rw [if_neg h2] at h
      by_cases h3 : (pyLower (phoneTypeNorm row i) == "residential") = true
      · rw [if_pos h3] at h
        cases hpy : (phoneNumCell row i).pyInt with
        | error e => rw [hpy] at h; exact Except.noConfusion h
        | ok n =>
          rw [hpy] at h
          obtain rfl : ({ ph with residential := ph.residential ++ [intRepr n] } : Phones) = ph2 :=
            Except.ok.inj h
          refine ⟨hwf.1, ?_⟩
          intro s hs
          rcases List.mem_append.mp hs with hs1 | hs1
          · exact hwf.2 s hs1
          · exact ⟨n, (List.mem_singleton.mp hs1)⟩
      · rw [if_neg h3] at h
        obtain rfl : ph = ph2 := Except.ok.inj h
        exact hwf
  · rw [if_neg h1] at h
    obtain rfl : ph = ph2 := Except.ok.inj h
    exact hwf

theorem classifyFold_wf (row : Row) (idxs : List Nat) : ∀ ph ph2 : Phones,
    phonesWF ph → classifyFold row ph idxs = .ok ph2 → phonesWF ph2 := by
  induction idxs with
  | nil =>
    intro ph ph2 hwf h
    obtain rfl : ph = ph2 := Except.ok.inj h
    exact hwf
  | cons i rest ih =>
    intro ph ph2 hwf h
    unfold classifyFold at h
    cases hstep : classifyStep row ph i with
    | error e => rw [hstep] at h; exact Except.noConfusion h
    | ok phMid =>
      rw [hstep] at h
      exact ih phMid ph2 (classifyStep_wf row ph phMid i hwf hstep) h

theorem getPhonesRow_wf (row : Row) (ph : Phones)
    (h : getPhonesRow row = .ok ph) : phonesWF ph :=
  classifyFold_wf row phoneIdxs ⟨[], []⟩ ph ⟨by simp, by simp⟩ h

/-! ### `get_phone_data` lemmas -/

theorem getPhoneData_mem (rows : List Row) : ∀ pd : List Phones,
    getPhoneData rows = .ok pd → ∀ ph ∈ pd, ∃ row ∈ rows, getPhonesRow row = .ok ph := by
  induction rows with
  | nil =>
    intro pd h
    obtain rfl : ([] : List Phones) = pd := Except.ok.inj h
    intro ph hph
    exact absurd hph (List.not_mem_nil ph)
  | cons row rest ih =>
    intro pd h
    unfold getPhoneData at h
    cases h1 : getPhonesRow row with
    | error e => rw [h1] at h; exact Except.noConfusion h
    | ok ph0 =>
      rw [h1] at h
      cases h2 : getPhoneData rest with
      | error e => rw [h2] at h; exact Except.noConfusion h
      | ok pdRest =>
        rw [h2] at h
        obtain rfl : ph0 :: pdRest = pd := Except.ok.inj h
        intro ph hph
        rcases List.mem_cons.mp hph with rfl | hph2
        · exact ⟨row, by simp, h1⟩
        · obtain ⟨r2, hr2, hr3⟩ := ih pdRest h2 ph hph2
          exact ⟨r2, by simp [hr2], hr3⟩

theorem getPhoneData_length (rows : List Row) : ∀ pd : List Phones,
    getPhoneData rows = .ok pd → pd.length = rows.length := by
  induction rows with
  | nil =>
    intro pd h
    obtain rfl : ([] : List Phones) = pd := Except.ok.inj h
    rfl
  | cons row rest ih =>
    intro pd h
    unfold getPhoneData at h
    cases h1 : getPhonesRow row with
    | error e => rw [h1] at h; exact Except.noConfusion h
    | ok ph0 =>
      rw [h1] at h
      cases h2 : getPhoneData rest with
      | error e => rw [h2] at h; exact Except.noConfusion h
      | ok pdRest =>
        rw [h2] at h
        obtain rfl : ph0 :: pdRest = pd := Except.ok.inj h
        simp [ih pdRest h2]

theorem getPhoneData_all_empty (rows : List Row)
    (h : ∀ row ∈ rows, getPhonesRow row = .ok ⟨[], []⟩) :
    getPhoneData rows = .ok (rows.map (fun _ => (⟨[], []⟩ : Phones))) := by
  induction rows with
  | nil => rfl
  | cons row rest ih =>
    unfold getPhoneData
    rw [h row (by simp), ih (fun r hr => h r (by simp [hr]))]
    rfl

/-! ### Projection-loop lemmas -/

theorem projectLoop_spec (cols : List String) (pairs : List (Row × Phones)) :
    ∀ a b : List Rec, (∀ rp ∈ pairs, phonesWF rp.2) →
    projectLoop cols pairs a b = .ok (a ++ roorOutsSpec pairs, b ++ rmOutsSpec cols pairs) := by
  induction pairs with
  | nil => intro a b _; simp [projectLoop, roorOutsSpec, rmOutsSpec]
  | cons rp rest ih =>
    intro a b h
    obtain ⟨row, ph⟩ := rp
    have hwf := h (row, ph) (by simp)
    have hrest : ∀ rp2 ∈ rest, phonesWF rp2.2 := fun rp2 hrp2 => h rp2 (by simp [hrp2])
    have hstep : projectLoop cols ((row, ph) :: rest) a b =
        projectLoop cols rest
          (if ph.mobile.isEmpty then a else a ++ [roorRecordPure row ph.mobile])
          (if ph.residential.isEmpty then b else b ++ [rmRecordPure row ph.residential cols]) := by
      conv_lhs => rw [projectLoop]
      by_cases hm : ph.mobile.isEmpty <;> by_cases hr : ph.residential.isEmpty <;>
        simp [hm, hr, createRoorRecord_ok row ph.mobile hwf.1,
          createReadymodeRecord_ok row ph.residential cols hwf.2]
    rw [hstep, ih _ _ hrest]
    by_cases hm : ph.mobile.isEmpty <;> by_cases hr : ph.residential.isEmpty
    · have hm2 : ph.mobile = [] := List.isEmpty_iff.mp hm
      have hr2 : ph.residential = [] := List.isEmpty_iff.mp hr
      simp [roorOutsSpec, rmOutsSpec, List.filterMap_cons, hm, hr, hm2, hr2, List.append_assoc]
    · have hm2 : ph.mobile = [] := List.isEmpty_iff.mp hm
      have hr2 : ph.residential ≠ [] := by simpa [List.isEmpty_iff] using hr
      simp [roorOutsSpec, rmOutsSpec, List.filterMap_cons, hm, hr, hm2, hr2, List.append_assoc]
    · have hm2 : ph.mobile ≠ [] := by simpa [List.isEmpty_iff] using hm
      have hr2 : ph.residential = [] := List.isEmpty_iff.mp hr
      simp [roorOutsSpec, rmOutsSpec, List.filterMap_cons, hm, hr, hm2, hr2, List.append_assoc]
    · have hm2 : ph.mobile ≠ [] := by simpa [List.isEmpty_iff] using hm
      have hr2 : ph.residential ≠ [] := by simpa [List.isEmpty_iff] using hr
      simp [roorOutsSpec, rmOutsSpec, List.filterMap_cons, hm, hr, hm2, hr2, List.append_assoc]

/-! ### Counting-loop lemmas -/

theorem countStep_eq (row : Row) (acc : Nat × Nat) (i : Nat) :
    countStep row acc i =
      if classifiesAs row i "mobile" = true then (acc.1 + 1, acc.2)
      else if classifiesAs row i "residential" = true then (acc.1, acc.2 + 1)
      else acc := by
  unfold countStep classifiesAs phonePresent
  by_cases h1 : ((phoneNumCell row i).notna && (phoneNumCell row i).neEmpty) = true
  · by_cases h2 : (pyLower (phoneTypeNorm row i) == "mobile") = true
    · simp [h1, h2]
    · by_cases h3 : (pyLower (phoneTypeNorm row i) == "residential") = true
      · simp [h1, h2, h3]
      · simp [h1, h2, h3]
  · simp only [Bool.not_eq_true] at h1
    simp [h1]

theorem countFoldIdxs (row : Row) (idxs : List Nat) : ∀ acc : Nat × Nat,
    idxs.foldl (countStep row) acc =
      (acc.1 + (idxs.filter (fun i => classifiesAs row i "mobile")).length,
       acc.2 + (idxs.filter (fun i => classifiesAs row i "residential")).length) := by
  induction idxs with
  | nil => intro acc; simp
  | cons i rest ih =>
    intro acc
    rw [List.foldl_cons, countStep_eq, ih]
    by_cases hm : classifiesAs row i "mobile" = true
    · have hr := classifiesAs_mobile_not_residential row i hm
      simp [List.filter_cons, hm, hr]
      omega
    · have hm2 : classifiesAs row i "mobile" = false := by simpa using hm
      by_cases hr : classifiesAs row i "residential" = true
      · simp [List.filter_cons, hm2, hr]
        omega
      · have hr2 : classifiesAs row i "residential" = false := by simpa using hr
        simp [List.filter_cons, hm2, hr2]

theorem countPhones_go (rows : List Row) : ∀ acc : Nat × Nat,
    rows.foldl (fun acc row => phoneIdxs.foldl (countStep row) acc) acc =
      (acc.1 + mobileCountSpec rows, acc.2 + residentialCountSpec rows) := by
  induction rows with
  | nil => intro acc; simp [mobileCountSpec, residentialCountSpec]
  | cons row rest ih =>
    intro acc
    rw [List.foldl_cons, countFoldIdxs, ih]
    simp [mobileCountSpec, residentialCountSpec]
    omega

theorem countPhones_spec (rows : List Row) :
    countPhones rows = (mobileCountSpec rows, residentialCountSpec rows) := by
  unfold countPhones
  rw [countPhones_go]
  simp

/-! ### Ordered-record (`odInsert`) lemmas -/

theorem find?_mapOverwrite (r : Rec) (c k : String) (v : Cell) (h : (c == k) = false) :
    (r.map (fun p => if p.1 == c then (c, v) else p)).find? (fun p => p.1 == k) =
    r.find? (fun p => p.1 == k) := by
  induction r with
  | nil => rfl
  | cons p t ih =>
    simp only [List.map_cons]
    by_cases hp : (p.1 == c) = true
    · have hcv : (((c, v) : String × Cell).1 == k) = false := h
      have hck : (p.1 == k) = false := by rw [eq_of_beq hp]; exact h
      rw [if_pos hp, List.find?_cons, List.find?_cons]
      simp only [hcv, hck]
      exact ih
    · rw [if_neg hp, List.find?_cons, List.find?_cons]
      by_cases hk : (p.1 == k) = true
      · simp only [hk]
      · simp only [Bool.not_eq_true] at hk
        simp only [hk]
        exact ih

theorem rowGet_odInsert_ne (r : Rec) (c k : String) (v d : Cell) (h : (c == k) = false) :
    rowGet (odInsert r c v) k d = rowGet r k d := by
  unfold odInsert rowGet
  by_cases hany : r.any (fun p => p.1 == c) = true
  · rw [if_pos hany, find?_mapOverwrite r c k v h]
  · rw [if_neg hany, List.find?_append]
    cases hf : r.find? (fun p => p.1 == k) with
    | some p => simp
    | none => simp [List.find?, h]

theorem rowGet_foldl_odInsert (row : Row) (cols : List String) : ∀ r0 : Rec, ∀ k : String,
    ∀ d : Cell, cols.contains k = false →
    rowGet (cols.foldl (fun rc c => odInsert rc c (rowGet row c (.str ""))) r0) k d =
      rowGet r0 k d := by
  induction cols with
  | nil => intro r0 k d _; rfl
  | cons c rest ih =>
    intro r0 k d h
    rw [List.contains_cons] at h
    have h2 := Bool.or_eq_false_iff.mp h
    have hck : (c == k) = false :=
      beq_eq_false_iff_ne.mpr (fun he => (beq_eq_false_iff_ne.mp h2.1) he.symm)
    rw [List.foldl_cons, ih _ k d h2.2, rowGet_odInsert_ne _ _ _ _ _ hck]

/-! ### Validation lemmas -/

theorem validateColumns_eq_nil_iff (dfD dfL : DF) :
    validateColumns dfD dfL = [] ↔
      ((∀ c ∈ directskipRequired, c ∈ dfD.cols) ∧
       (∀ c ∈ landportalRequired, c ∈ dfL.cols) ∧
       ∃ c ∈ dfD.cols, isPhoneNumberCol c = true) := by
  unfold validateColumns
  by_cases hph : (dfD.cols.filter isPhoneNumberCol).isEmpty = true
  · have hno : ¬ ∃ c ∈ dfD.cols, isPhoneNumberCol c = true := by
      rw [List.isEmpty_iff, List.filter_eq_nil_iff] at hph
      rintro ⟨c, hc1, hc2⟩
      exact hph c hc1 hc2
    simp only [hph, if_true]
    constructor
    · intro h
      simp [List.append_eq_nil] at h
    · rintro ⟨_, _, hex⟩
      exact absurd hex hno
  · have hne : dfD.cols.filter isPhoneNumberCol ≠ [] := by
      simpa [List.isEmpty_iff] using hph
    obtain ⟨c0, hc0⟩ := List.exists_mem_of_ne_nil _ hne
    have hex : ∃ c ∈ dfD.cols, isPhoneNumberCol c = true :=
      ⟨c0, (List.mem_filter.mp hc0).1, (List.mem_filter.mp hc0).2⟩
    simp only [hph, Bool.false_eq_true, if_false, List.append_nil, List.append_eq_nil,
      List.map_eq_nil_iff, List.filter_eq_nil_iff, Bool.not_eq_true, Bool.not_eq_false]
    constructor
    · rintro ⟨h1, h2⟩
      refine ⟨?_, ?_, hex⟩
      · intro c hc
        have := h1 c hc
        simpa using this
      · intro c hc
        have := h2 c hc
        simpa using this
    · rintro ⟨h1, h2, _⟩
      refine ⟨?_, ?_⟩
      · intro c hc
        simpa using h1 c hc
      · intro c hc
        simpa using h2 c hc

theorem validateColumns_length (dfD dfL : DF) :
    (validateColumns dfD dfL).length =
      (directskipRequired.filter (fun c => !dfD.cols.contains c)).length +
      (landportalRequired.filter (fun c => !dfL.cols.contains c)).length +
      (if (dfD.cols.filter isPhoneNumberCol).isEmpty then 1 else 0) := by
  unfold validateColumns
  by_cases hph : (dfD.cols.filter isPhoneNumberCol).isEmpty = true <;>
    (simp [hph, List.length_append]; try omega)

/-! ### Merge lemmas -/

theorem filterMapPairHelper (r1 : Row) (dfL : List Row) :
    (dfL.filter (fun r2 =>
        rowGet r2 "propertyID" .na == rowGet r1 "Input Custom Field 1" .na)).map
      (fun r2 => r1 ++ r2) =
    dfL.filterMap (fun r2 =>
      if (rowGet r2 "propertyID" .na == rowGet r1 "Input Custom Field 1" .na) = true
      then some (r1 ++ r2) else none) := by
  induction dfL with
  | nil => rfl
  | cons r2 rest ih =>
    by_cases hkey : (rowGet r2 "propertyID" .na == rowGet r1 "Input Custom Field 1" .na) = true
    · have hk2 : rowGet r2 "propertyID" Cell.na = rowGet r1 "Input Custom Field 1" Cell.na :=
        eq_of_beq hkey
      simp [List.filter_cons, List.filterMap_cons, hkey, hk2, ih]
    · have hk2 : ¬(rowGet r2 "propertyID" Cell.na = rowGet r1 "Input Custom Field 1" Cell.na) := by
        simpa using hkey
      simp [List.filter_cons, List.filterMap_cons, hkey, hk2, ih]

theorem mergeInner_pairs (dfD dfL : List Row) :
    mergeInner dfD dfL =
      (dfD.flatMap (fun r1 => dfL.map (fun r2 => (r1, r2)))).filterMap
        (fun p =>
          if (rowGet p.2 "propertyID" .na == rowGet p.1 "Input Custom Field 1" .na) = true
          then some (p.1 ++ p.2) else none) := by
  induction dfD with
  | nil => rfl
  | cons r1 rest ih =>
    have hstep : mergeInner (r1 :: rest) dfL =
        ((dfL.filter (fun r2 =>
            rowGet r2 "propertyID" .na == rowGet r1 "Input Custom Field 1" .na)).map
          (fun r2 => r1 ++ r2)) ++ mergeInner rest dfL := by
      unfold mergeInner
      rw [List.flatMap_cons]
    rw [hstep, filterMapPairHelper, ih, List.flatMap_cons, List.filterMap_append,
      List.filterMap_map]
    rfl

theorem mergeInner_length (dfD dfL : List Row) :
    (mergeInner dfD dfL).length =
      (dfD.map (fun r1 =>
        (dfL.filter (fun r2 =>
          rowGet r2 "propertyID" .na == rowGet r1 "Input Custom Field 1" .na)).length)).sum := by
  unfold mergeInner
  have hcomp : (List.length ∘ fun r1 : Row =>
      List.map (fun r2 => r1 ++ r2)
        (List.filter (fun r2 =>
          rowGet r2 "propertyID" Cell.na == rowGet r1 "Input Custom Field 1" Cell.na) dfL)) =
      (fun r1 =>
        (List.filter (fun r2 =>
          rowGet r2 "propertyID" Cell.na == rowGet r1 "Input Custom Field 1" Cell.na) dfL).length) := by
    funext r1
    simp [Function.comp, List.length_map]
  rw [List.length_flatMap, hcomp]

theorem mergeInner_mem (dfD dfL : List Row) (m : Row) :
    m ∈ mergeInner dfD dfL ↔
      ∃ r1 ∈ dfD, ∃ r2 ∈ dfL,
        (rowGet r2 "propertyID" .na == rowGet r1 "Input Custom Field 1" .na) = true ∧
        m = r1 ++ r2 := by
  unfold mergeInner
  simp only [List.mem_flatMap, List.mem_map, List.mem_filter]
  constructor
  · rintro ⟨r1, hr1, r2, ⟨hr2, hkey⟩, rfl⟩
    exact ⟨r1, hr1, r2, hr2, hkey, rfl⟩
  · rintro ⟨r1, hr1, r2, hr2, hkey, rfl⟩
    exact ⟨r1, hr1, r2, ⟨hr2, hkey⟩, rfl⟩

/-! ### Error-propagation lemmas (uncaught coercion exceptions) -/

theorem classifyStep_bad (row : Row) (ph : Phones) (i : Nat)
    (hcls : (classifiesAs row i "mobile" || classifiesAs row i "residential") = true)
    (hbad : exceptIsOk (phoneNumCell row i).pyInt = false) :
    ∃ e, classifyStep row ph i = .error e := by
  cases hpy : (phoneNumCell row i).pyInt with
  | ok n => rw [hpy] at hbad; exact absurd hbad (by simp [exceptIsOk])
  | error e =>
    refine ⟨e, ?_⟩
    rcases Bool.or_eq_true_iff.mp hcls with hm | hr
    · rcases Bool.and_eq_true_iff.mp hm with ⟨h1, h2⟩
      unfold classifyStep
      unfold phonePresent at h1
      simp only [h1, h2, if_true, hpy]
    · rcases Bool.and_eq_true_iff.mp hr with ⟨h1, h2⟩
      have hmob : (pyLower (phoneTypeNorm row i) == "mobile") = false := by
        have he : pyLower (phoneTypeNorm row i) = "residential" := eq_of_beq h2
        rw [he]
        decide
      unfold classifyStep
      unfold phonePresent at h1
      simp only [h1, h2, hmob, if_true, Bool.false_eq_true, if_false, hpy]

theorem classifyFold_bad (row : Row) (idxs : List Nat) : ∀ ph : Phones,
    (∃ i ∈ idxs,
      (classifiesAs row i "mobile" || classifiesAs row i "residential") = true ∧
      exceptIsOk (phoneNumCell row i).pyInt = false) →
    ∃ e, classifyFold row ph idxs = .error e := by
  induction idxs with
  | nil =>
    intro ph h
    obtain ⟨i, hi, _⟩ := h
    exact absurd hi (List.not_mem_nil i)
  | cons j rest ih =>
    intro ph h
    cases hstep : classifyStep row ph j with
    | error e =>
      refine ⟨e, ?_⟩
      unfold classifyFold
      rw [hstep]
    | ok ph2 =>
      obtain ⟨i, hi, hcls, hbad⟩ := h
      rcases List.mem_cons.mp hi with rfl | hirest
      · obtain ⟨e, he⟩ := classifyStep_bad row ph i hcls hbad
        rw [hstep] at he
        exact Except.noConfusion he
      · obtain ⟨e, he⟩ := ih ph2 ⟨i, hirest, hcls, hbad⟩
        refine ⟨e, ?_⟩
        simp only [classifyFold, hstep, he]

theorem getPhonesRow_bad (row : Row) (h : rowBadPhone row = true) :
    ∃ e, getPhonesRow row = .error e := by
  unfold rowBadPhone at h
  obtain ⟨i, hi, hcond⟩ := List.any_eq_true.mp h
  rcases Bool.and_eq_true_iff.mp hcond with ⟨hcls, hbad⟩
  rw [Bool.not_eq_true'] at hbad
  exact classifyFold_bad row phoneIdxs ⟨[], []⟩ ⟨i, hi, hcls, hbad⟩

theorem getPhoneData_bad (rows : List Row) :
    (∃ row ∈ rows, rowBadPhone row = true) →
    ∃ e, getPhoneData rows = .error e := by
  induction rows with
  | nil =>
    intro h
    obtain ⟨row, hrow, _⟩ := h
    exact absurd hrow (List.not_mem_nil row)
  | cons r rest ih =>
    intro h
    cases h1 : getPhonesRow r with
    | error e =>
      refine ⟨e, ?_⟩
      unfold getPhoneData
      rw [h1]
    | ok ph =>
      obtain ⟨row, hrow, hbad⟩ := h
      rcases List.mem_cons.mp hrow with rfl | hrest
      · obtain ⟨e, he⟩ := getPhonesRow_bad row hbad
        rw [h1] at he
        exact Except.noConfusion he
      · obtain ⟨e, he⟩ := ih ⟨row, hrest, hbad⟩
        refine ⟨e, ?_⟩
        simp only [getPhoneData, h1, he]

/-! ### Pipeline master lemma -/

theorem processFiles_ok (dfD dfL : DF) (pdata : List Phones)
    (h : getPhoneData (mergeInner dfD.rows dfL.rows) = .ok pdata) :
    processFiles dfD dfL = .ok
      (roorOutsSpec ((mergeInner dfD.rows dfL.rows).zip pdata),
       rmOutsSpec dfL.cols ((mergeInner dfD.rows dfL.rows).zip pdata),
       { directskip_records := dfD.rows.length,
         landportal_records := dfL.rows.length,
         total_merged := (mergeInner dfD.rows dfL.rows).length,
         total_mobile_phones := mobileCountSpec dfD.rows,
         total_residential_phones := residentialCountSpec dfD.rows,
         roor_count := (roorOutsSpec ((mergeInner dfD.rows dfL.rows).zip pdata)).length,
         readymode_count :=
           (rmOutsSpec dfL.cols ((mergeInner dfD.rows dfL.rows).zip pdata)).length }) := by
  have hwf : ∀ rp ∈ (mergeInner dfD.rows dfL.rows).zip pdata, phonesWF rp.2 := by
    intro rp hrp
    obtain ⟨row, ph⟩ := rp
    have hmem : ph ∈ pdata := (List.of_mem_zip hrp).2
    obtain ⟨r2, _, hok⟩ := getPhoneData_mem _ pdata h ph hmem
    exact getPhonesRow_wf r2 ph hok
  simp only [processFiles, h]
  rw [projectLoop_spec dfL.cols ((mergeInner dfD.rows dfL.rows).zip pdata) [] [] hwf]
  simp only [List.nil_append]
  rw [countPhones_spec]

/-! ### Claim theorems -/

/-- C1: for every joined row, a RooR record is produced iff the classified
mobile list is nonempty and a ReadyMode record iff the residential list is
nonempty (the outputs are exactly the filterMaps of the joined rows on those
conditions, so each joined row yields at most one record per output); a row
with both kinds of phone appears in both outputs, and the filterMap form means
a row with neither appears in neither. -/
theorem c1_record_production (dfD dfL : DF) (pdata : List Phones)
    (h : getPhoneData (mergeInner dfD.rows dfL.rows) = .ok pdata) :
    (∃ stats : Stats,
      processFiles dfD dfL = .ok
        (roorOutsSpec ((mergeInner dfD.rows dfL.rows).zip pdata),
         rmOutsSpec dfL.cols ((mergeInner dfD.rows dfL.rows).zip pdata), stats)) ∧
    (∀ rp ∈ (mergeInner dfD.rows dfL.rows).zip pdata,
      (rp.2.mobile ≠ [] →
        roorRecordPure rp.1 rp.2.mobile ∈
          roorOutsSpec ((mergeInner dfD.rows dfL.rows).zip pdata)) ∧
      (rp.2.residential ≠ [] →
        rmRecordPure rp.1 rp.2.residential dfL.cols ∈
          rmOutsSpec dfL.cols ((mergeInner dfD.rows dfL.rows).zip pdata))) ∧
    (roorOutsSpec ((mergeInner dfD.rows dfL.rows).zip pdata)).length ≤
      ((mergeInner dfD.rows dfL.rows).zip pdata).length ∧
    (rmOutsSpec dfL.cols ((mergeInner dfD.rows dfL.rows).zip pdata)).length ≤
      ((mergeInner dfD.rows dfL.rows).zip pdata).length := by
  refine ⟨⟨_, processFiles_ok dfD dfL pdata h⟩, ?_, ?_, ?_⟩
  · intro rp hrp
    constructor
    · intro hne
      exact List.mem_filterMap.mpr ⟨rp, hrp, by simp [List.isEmpty_iff, hne]⟩
    · intro hne
      exact List.mem_filterMap.mpr ⟨rp, hrp, by simp [List.isEmpty_iff, hne]⟩
  · exact List.length_filterMap_le _ _
  · exact List.length_filterMap_le _ _

/-- C2: per contact row and phone index 1..7, the phone number joins the
mobile list exactly when the number is present (not NaN, not empty) and the
trimmed, lowercased type equals "mobile", the residential list exactly when it
equals "residential"; any other type, or a missing/empty number, contributes
to neither list (the extracted lists are exactly the index-order filterings on
those conditions). -/
theorem c2_phone_classification (row : Row) (h : rowCoercible row) :
    getPhonesRow row = .ok ⟨mobileListSpec row, residentialListSpec row⟩ ∧
    (∀ i ∈ phoneIdxs, phonePresent row i = false →
      classifiesAs row i "mobile" = false ∧ classifiesAs row i "residential" = false) := by
  refine ⟨getPhonesRow_spec row h, ?_⟩
  intro i _ hna
  unfold classifiesAs
  rw [hna]
  exact ⟨rfl, rfl⟩

/-- C3: the classified lists are in ascending phone-index order, and the RooR
projector emits exactly the first three mobile numbers into Phone1..Phone3 in
order, padding missing slots with the empty string (numbers beyond the third
are not read by the record at all). -/
theorem c3_roor_phone_order (row : Row) (h : rowCoercible row) :
    getPhonesRow row = .ok ⟨mobileListSpec row, residentialListSpec row⟩ ∧
    List.Pairwise (fun a b => a < b)
      (phoneIdxs.filter (fun i => classifiesAs row i "mobile")) ∧
    createRoorRecord row (mobileListSpec row) =
      .ok (roorRecordPure row (mobileListSpec row)) ∧
    rowGet (roorRecordPure row (mobileListSpec row)) "Phone1" .na =
      .str ((mobileListSpec row).getD 0 "") ∧
    rowGet (roorRecordPure row (mobileListSpec row)) "Phone2" .na =
      .str ((mobileListSpec row).getD 1 "") ∧
    rowGet (roorRecordPure row (mobileListSpec row)) "Phone3" .na =
      .str ((mobileListSpec row).getD 2 "") := by
  have hspec := getPhonesRow_spec row h
  have hwf := getPhonesRow_wf row _ hspec
  refine ⟨hspec, ?_, createRoorRecord_ok row (mobileListSpec row) hwf.1, rfl, rfl, rfl⟩
  exact List.Pairwise.sublist (List.filter_sublist _) (by decide)

/-- C4: the merge is a standard inner equi-join on the contact join key
against the parcel propertyID: it equals the filterMap of all left-right row
pairs on key equality (each matching pair contributes exactly once, duplicate
keys give the full cross-product), its length is the sum over contact rows of
their match counts, and a row belongs to it exactly when it is the
concatenation of a matching pair; unmatched rows on either side appear in no
pair and are dropped. -/
theorem c4_inner_join (dfD dfL : List Row) :
    mergeInner dfD dfL =
      (dfD.flatMap (fun r1 => dfL.map (fun r2 => (r1, r2)))).filterMap
        (fun p =>
          if (rowGet p.2 "propertyID" .na == rowGet p.1 "Input Custom Field 1" .na) = true
          then some (p.1 ++ p.2) else none) ∧
    (mergeInner dfD dfL).length =
      (dfD.map (fun r1 =>
        (dfL.filter (fun r2 =>
          rowGet r2 "propertyID" .na == rowGet r1 "Input Custom Field 1" .na)).length)).sum ∧
    ∀ m : Row, m ∈ mergeInner dfD dfL ↔
      ∃ r1 ∈ dfD, ∃ r2 ∈ dfL,
        (rowGet r2 "propertyID" .na == rowGet r1 "Input Custom Field 1" .na) = true ∧
        m = r1 ++ r2 :=
  ⟨mergeInner_pairs dfD dfL, mergeInner_length dfD dfL, fun m => mergeInner_mem dfD dfL m⟩

/-- The phone-column pattern as the amended C5 words it: "Phone" followed by a
nonempty string of decimal digits with no other suffix. -/
def specPhoneDigitsCol (c : String) : Bool :=
  "Phone".data.isPrefixOf c.data && !(c.data.drop 5).isEmpty && (c.data.drop 5).all isDigitChar

theorem specPhoneDigitsCol_eq (c : String) : specPhoneDigitsCol c = isPhoneNumberCol c := by
  unfold specPhoneDigitsCol isPhoneNumberCol pyIsdigit
  rw [Bool.and_assoc]

/-- Contact table whose only phone-like column is "Phone0". -/
def dfPhone0 : DF :=
  ⟨["Input Custom Field 1", "Matched First Name", "Matched Last Name", "Phone0"], []⟩

/-- Parcel table with exactly the required columns. -/
def dfParcelFull : DF := ⟨landportalRequired, []⟩

/-- C5 counterexample: on a contact table whose only phone-like column is
"Phone0" (and all other required columns present), the validator returns the
empty error list even though no column is "Phone" followed by a positive
integer — `col[5:].isdigit()` also accepts "0". -/
theorem c5_counterexample :
    validateColumns dfPhone0 dfParcelFull = [] ∧
    ∀ c ∈ dfPhone0.cols, specPhonePosIntCol c = false := by
  constructor
  · rfl
  · decide

/-- C5 (amended): the validator returns the empty list iff the three required
contact columns are present, the eleven required parcel columns are present,
and some contact column is "Phone" followed by a nonempty digit string (not
necessarily a positive integer: "Phone0" qualifies); each missing requirement
contributes exactly one error string, with the phone-column family counted as
a single requirement, so all violations are collected together. -/
theorem c5_amended_validator (dfD dfL : DF) :
    (validateColumns dfD dfL = [] ↔
      ((∀ c ∈ directskipRequired, c ∈ dfD.cols) ∧
       (∀ c ∈ landportalRequired, c ∈ dfL.cols) ∧
       ∃ c ∈ dfD.cols, specPhoneDigitsCol c = true)) ∧
    (validateColumns dfD dfL).length =
      (directskipRequired.filter (fun c => !dfD.cols.contains c)).length +
      (landportalRequired.filter (fun c => !dfL.cols.contains c)).length +
      (if (dfD.cols.filter isPhoneNumberCol).isEmpty then 1 else 0) := by
  constructor
  · have h := validateColumns_eq_nil_iff dfD dfL
    simpa [specPhoneDigitsCol_eq] using h
  · exact validateColumns_length dfD dfL

/-- C7: the ReadyMode record's "Google Maps URL" field is exactly the format
string with the row's latitude and longitude substituted when both are
present (not NaN) and nonempty, and the empty string otherwise (provided no
parcel column is itself named "Google Maps URL", which would overwrite the
field during the trailing pass-through). -/
theorem c7_google_maps_url (row : Row) (phones lpCols : List String) (r : Rec)
    (hc : lpCols.contains "Google Maps URL" = false)
    (h : createReadymodeRecord row phones lpCols = .ok r) :
    rowGet r "Google Maps URL" .na =
      .str (if ((rowGet row "Latitude" (.str "")).notna &&
                (rowGet row "Longitude" (.str "")).notna &&
                (rowGet row "Latitude" (.str "")).neEmpty &&
                (rowGet row "Longitude" (.str "")).neEmpty) then
              "http://maps.google.com/maps?z=16&t=m&q=" ++
                (rowGet row "Latitude" (.str "")).pyStr ++ "," ++
                (rowGet row "Longitude" (.str "")).pyStr
            else "") := by
  unfold createReadymodeRecord at h
  cases hs1 : phoneSlot phones 0 with
  | error e => rw [hs1] at h; exact Except.noConfusion h
  | ok s1 =>
  rw [hs1] at h
  cases hs2 : phoneSlot phones 1 with
  | error e => rw [hs2] at h; exact Except.noConfusion h
  | ok s2 =>
  rw [hs2] at h
  cases hs3 : phoneSlot phones 2 with
  | error e => rw [hs3] at h; exact Except.noConfusion h
  | ok s3 =>
  rw [hs3] at h
  cases hs4 : phoneSlot phones 3 with
  | error e => rw [hs4] at h; exact Except.noConfusion h
  | ok s4 =>
  rw [hs4] at h
  obtain rfl := (Except.ok.inj h).symm
  rw [rowGet_foldl_odInsert row lpCols _ "Google Maps URL" .na hc]
  rfl

/-- C6: the statistics consist exactly of the two input row counts, the
merged-row count, the mobile and residential phone-occurrence totals counted
over the full contact table with the extraction classification rule
(independently of the join), and the two final output record counts. -/
theorem c6_statistics (dfD dfL : DF) (roor rm : List Rec) (stats : Stats)
    (h : processFiles dfD dfL = .ok (roor, rm, stats)) :
    stats = ⟨dfD.rows.length, dfL.rows.length, (mergeInner dfD.rows dfL.rows).length,
             mobileCountSpec dfD.rows, residentialCountSpec dfD.rows,
             roor.length, rm.length⟩ := by
  simp only [processFiles] at h
  cases h1 : getPhoneData (mergeInner dfD.rows dfL.rows) with
  | error e => simp only [h1] at h; exact Except.noConfusion h
  | ok pdata =>
  simp only [h1] at h
  cases h2 : projectLoop dfL.cols ((mergeInner dfD.rows dfL.rows).zip pdata) [] [] with
  | error e => simp only [h2] at h; exact Except.noConfusion h
  | ok outs =>
  simp only [h2] at h
  have h3 := Except.ok.inj h
  have hr : outs.1 = roor := by
    have h4 := congrArg (fun t : List Rec × List Rec × Stats => t.1) h3
    simpa using h4
  have hm : outs.2 = rm := by
    have h4 := congrArg (fun t : List Rec × List Rec × Stats => t.2.1) h3
    simpa using h4
  have hs : stats =
      { directskip_records := dfD.rows.length, landportal_records := dfL.rows.length,
        total_merged := (mergeInner dfD.rows dfL.rows).length,
        total_mobile_phones := (countPhones dfD.rows).1,
        total_residential_phones := (countPhones dfD.rows).2,
        roor_count := outs.1.length, readymode_count := outs.2.length } := by
    have h4 := congrArg (fun t : List Rec × List Rec × Stats => t.2.2) h3
    simpa using h4.symm
  rw [hs, countPhones_spec, hr, hm]

/-! ### C8 concrete input: a joined row with a non-coercible mobile phone -/

/-- Contact table: first row joined and carrying a non-numeric mobile phone,
second row joined and carrying a valid mobile phone. -/
def dfBadPhones : DF :=
  ⟨["Input Custom Field 1", "Matched First Name", "Matched Last Name", "Phone1", "Phone1 Type"],
   [[("Input Custom Field 1", .str "K1"), ("Matched First Name", .str "Ann"),
     ("Matched Last Name", .str "Lee"), ("Phone1", .str "abc"), ("Phone1 Type", .str "Mobile")],
    [("Input Custom Field 1", .str "K2"), ("Matched First Name", .str "Bob"),
     ("Matched Last Name", .str "Kim"), ("Phone1", .num 5551234567),
     ("Phone1 Type", .str "Mobile")]]⟩

/-- Parcel table joining both contact rows. -/
def dfParcelsTwo : DF :=
  ⟨landportalRequired, [[("propertyID", .str "K1")], [("propertyID", .str "K2")]]⟩

/-- C8 counterexample: with a joined row whose mobile phone value "abc" cannot
be coerced, the whole pipeline returns the raised coercion error — the second
(valid) row is not processed and no output tables or statistics are produced,
so the error is not recovered locally per-row. -/
theorem c8_counterexample :
    processFiles dfBadPhones dfParcelsTwo =
      .error "invalid literal for int() with base 10: 'abc'" := by
  rfl

/-- C8 (amended): whenever some joined row carries a classified phone value
that cannot be coerced to an integer, the pipeline surfaces the coercion
error by raising it — but the raised exception aborts the entire run instead
of being recovered per-row (and a bad value in a contact row that joins no
parcel row is never examined at all, since extraction runs on merged rows). -/
theorem c8_amended_abort (dfD dfL : DF)
    (h : (mergeInner dfD.rows dfL.rows).any rowBadPhone = true) :
    pipelineIsError (processFiles dfD dfL) = true := by
  obtain ⟨row, hrow, hbad⟩ := List.any_eq_true.mp h
  obtain ⟨e, he⟩ := getPhoneData_bad (mergeInner dfD.rows dfL.rows) ⟨row, hrow, hbad⟩
  simp only [processFiles, he]
  rfl

/-- Witness for C8 (amended) at the concrete bad table. -/
theorem c8_amended_abort_witness :
    (mergeInner dfBadPhones.rows dfParcelsTwo.rows).any rowBadPhone = true ∧
    pipelineIsError (processFiles dfBadPhones dfParcelsTwo) = true :=
  ⟨by rfl, c8_amended_abort dfBadPhones dfParcelsTwo (by rfl)⟩

/-- The (output key, source column) pairs of the non-phone RooR fields. -/
def roorFieldSources : List (String × String) :=
  [("FirstName", "Matched First Name"), ("LastName", "Matched Last Name"),
   ("Email", "Hyperlink"), ("PropertyAddress", "Parcel Full Address"),
   ("PropertyCity", "Parcel City"), ("PropertyState", "Parcel State"),
   ("PropertyZip", "Parcel Zip"), ("APN", "APN"),
   ("PropertyCounty", "Parcel County"), ("Acreage", "Calc Acreage")]

/-- C9: every RooR record carries exactly the 13 schema keys in order, each
non-phone field is the row's source-column value with an empty-string default
for an absent column, and a missing source value (absent column, hence the
empty-string default, or a NaN cell) is emitted to CSV as the empty string,
never as a null. -/
theorem c9_roor_full_schema (row : Row) (m : List String) (r : Rec)
    (h : createRoorRecord row m = .ok r) :
    r.map Prod.fst = ["FirstName", "LastName", "Email", "PropertyAddress", "PropertyCity",
      "PropertyState", "PropertyZip", "Phone1", "Phone2", "Phone3", "APN", "PropertyCounty",
      "Acreage"] ∧
    (∀ p ∈ roorFieldSources, rowGet r p.1 .na = rowGet row p.2 (.str "")) ∧
    (∀ p ∈ roorFieldSources,
      (rowGet row p.2 (.str "") = .na ∨ rowGet row p.2 (.str "") = .str "") →
      emitCell (rowGet r p.1 .na) = "") := by
  unfold createRoorRecord at h
  cases hs1 : phoneSlot m 0 with
  | error e => rw [hs1] at h; exact Except.noConfusion h
  | ok p1 =>
  rw [hs1] at h
  cases hs2 : phoneSlot m 1 with
  | error e => rw [hs2] at h; exact Except.noConfusion h
  | ok p2 =>
  rw [hs2] at h
  cases hs3 : phoneSlot m 2 with
  | error e => rw [hs3] at h; exact Except.noConfusion h
  | ok p3 =>
  rw [hs3] at h
  obtain rfl := (Except.ok.inj h).symm
  have hcopy : ∀ p ∈ roorFieldSources,
      rowGet [("FirstName", rowGet row "Matched First Name" (.str "")),
              ("LastName", rowGet row "Matched Last Name" (.str "")),
              ("Email", rowGet row "Hyperlink" (.str "")),
              ("PropertyAddress", rowGet row "Parcel Full Address" (.str "")),
              ("PropertyCity", rowGet row "Parcel City" (.str "")),
              ("PropertyState", rowGet row "Parcel State" (.str "")),
              ("PropertyZip", rowGet row "Parcel Zip" (.str "")),
              ("Phone1", .str p1), ("Phone2", .str p2), ("Phone3", .str p3),
              ("APN", rowGet row "APN" (.str "")),
              ("PropertyCounty", rowGet row "Parcel County" (.str "")),
              ("Acreage", rowGet row "Calc Acreage" (.str ""))] p.1 .na =
        rowGet row p.2 (.str "") := by
    intro p hp
    fin_cases hp <;> rfl
  refine ⟨rfl, hcopy, ?_⟩
  intro p hp hmiss
  rw [hcopy p hp]
  rcases hmiss with hm2 | hm2 <;> rw [hm2] <;> rfl

/-! ### C10 helper lemmas -/

theorem rowGet_append_na (r1 r2 : Row) (k : String)
    (h1 : rowGet r1 k .na = .na) (h2 : rowGet r2 k .na = .na) :
    rowGet (r1 ++ r2) k .na = .na := by
  unfold rowGet at h1 h2 ⊢
  rw [List.find?_append]
  cases hf1 : r1.find? (fun p => p.1 == k) with
  | some p =>
    rw [hf1] at h1
    rw [Option.or_some]
    exact h1
  | none =>
    rw [Option.none_or]
    exact h2

theorem classifiesAs_na (row : Row) (i : Nat) (t : String)
    (h : phoneNumCell row i = .na) : classifiesAs row i t = false := by
  unfold classifiesAs phonePresent
  rw [h]
  rfl

theorem getPhonesRow_all_na (row : Row)
    (h : ∀ i ∈ phoneIdxs, phoneNumCell row i = .na) :
    getPhonesRow row = .ok ⟨[], []⟩ := by
  have hco : rowCoercible row := by
    intro i hi hcls
    rw [classifiesAs_na row i _ (h i hi), classifiesAs_na row i _ (h i hi)] at hcls
    exact absurd hcls (by simp)
  have hm : mobileListSpec row = [] := by
    unfold mobileListSpec
    rw [List.filter_eq_nil_iff.mpr (fun i hi => by rw [classifiesAs_na row i _ (h i hi)]; simp)]
    rfl
  have hr : residentialListSpec row = [] := by
    unfold residentialListSpec
    rw [List.filter_eq_nil_iff.mpr (fun i hi => by rw [classifiesAs_na row i _ (h i hi)]; simp)]
    rfl
  rw [getPhonesRow_spec row hco, hm, hr]

/-- C10: when schema validation is satisfied via a phone column whose index is
outside 1..7 (e.g. "Phone10") but every Phone1..Phone7 number cell of both
tables is absent/NaN, validation passes, yet the extractor and the counting
loop read only Phone1..Phone7, so every phone is ignored: both totals are
zero and both output tables are empty. -/
theorem c10_out_of_range_phones (dfD dfL : DF)
    (h1 : ∀ c ∈ directskipRequired, c ∈ dfD.cols)
    (h2 : ∀ c ∈ landportalRequired, c ∈ dfL.cols)
    (h3 : ∃ c ∈ dfD.cols, isPhoneNumberCol c = true)
    (h4 : ∀ row ∈ dfD.rows, ∀ i ∈ phoneIdxs, phoneNumCell row i = .na)
    (h5 : ∀ row ∈ dfL.rows, ∀ i ∈ phoneIdxs, phoneNumCell row i = .na) :
    validateColumns dfD dfL = [] ∧
    processFiles dfD dfL = .ok ([], [],
      ⟨dfD.rows.length, dfL.rows.length, (mergeInner dfD.rows dfL.rows).length, 0, 0, 0, 0⟩) := by
  refine ⟨(validateColumns_eq_nil_iff dfD dfL).mpr ⟨h1, h2, h3⟩, ?_⟩
  have hmerged : ∀ m ∈ mergeInner dfD.rows dfL.rows, ∀ i ∈ phoneIdxs,
      phoneNumCell m i = .na := by
    intro m hm i hi
    obtain ⟨r1, hr1, r2, hr2, _, rfl⟩ := (mergeInner_mem dfD.rows dfL.rows m).mp hm
    exact rowGet_append_na r1 r2 _ (h4 r1 hr1 i hi) (h5 r2 hr2 i hi)
  have hpd := getPhoneData_all_empty (mergeInner dfD.rows dfL.rows)
    (fun m hm2 => getPhonesRow_all_na m (hmerged m hm2))
  have hmain := processFiles_ok dfD dfL _ hpd
  have hzip : ∀ rp ∈ (mergeInner dfD.rows dfL.rows).zip
      ((mergeInner dfD.rows dfL.rows).map (fun _ => (⟨[], []⟩ : Phones))),
      rp.2 = (⟨[], []⟩ : Phones) := by
    intro rp hrp
    have hmem := (List.of_mem_zip hrp).2
    obtain ⟨a, _, hm2⟩ := List.mem_map.mp hmem
    exact hm2.symm
  have hro : roorOutsSpec ((mergeInner dfD.rows dfL.rows).zip
      ((mergeInner dfD.rows dfL.rows).map (fun _ => (⟨[], []⟩ : Phones)))) = [] :=
    List.filterMap_eq_nil_iff.mpr (fun rp hrp => by rw [hzip rp hrp]; rfl)
  have hrm : rmOutsSpec dfL.cols ((mergeInner dfD.rows dfL.rows).zip
      ((mergeInner dfD.rows dfL.rows).map (fun _ => (⟨[], []⟩ : Phones)))) = [] :=
    List.filterMap_eq_nil_iff.mpr (fun rp hrp => by rw [hzip rp hrp]; rfl)
  have hm0 : mobileCountSpec dfD.rows = 0 := by
    unfold mobileCountSpec
    apply List.sum_eq_zero
    intro x hx
    obtain ⟨row, hrow, rfl⟩ := List.mem_map.mp hx
    rw [List.filter_eq_nil_iff.mpr
      (fun i hi => by rw [classifiesAs_na row i _ (h4 row hrow i hi)]; simp)]
    rfl
  have hr0 : residentialCountSpec dfD.rows = 0 := by
    unfold residentialCountSpec
    apply List.sum_eq_zero
    intro x hx
    obtain ⟨row, hrow, rfl⟩ := List.mem_map.mp hx
    rw [List.filter_eq_nil_iff.mpr
      (fun i hi => by rw [classifiesAs_na row i _ (h4 row hrow i hi)]; simp)]
    rfl
  rw [hmain, hro, hrm, hm0, hr0]
  rfl

/-! ### Concrete witness inputs -/

/-- Contact table of the spec's end-to-end scenario: one row with a mobile and
a residential phone, join key "P100". -/
def dfScenario : DF :=
  ⟨["Input Custom Field 1", "Matched First Name", "Matched Last Name",
    "Phone1", "Phone1 Type", "Phone2", "Phone2 Type"],
   [[("Input Custom Field 1", .str "P100"), ("Matched First Name", .str "John"),
     ("Matched Last Name", .str "Doe"),
     ("Phone1", .num 5551234567), ("Phone1 Type", .str "Mobile"),
     ("Phone2", .num 5559876543), ("Phone2 Type", .str "Residential")]]⟩

/-- Parcel table of the scenario: one row with propertyID "P100". -/
def dfParcelOne : DF :=
  ⟨landportalRequired,
   [[("propertyID", .str "P100"), ("Latitude", .str "40.0"), ("Longitude", .str "-74.0"),
     ("Hyperlink", .str "http://example.com/p100"), ("Parcel Full Address", .str "1 Main St"),
     ("Parcel City", .str "Town"), ("Parcel State", .str "NJ"), ("Parcel Zip", .str "07001"),
     ("APN", .str "A1"), ("Parcel County", .str "County"), ("Calc Acreage", .str "2.5")]]⟩

/-- The classified phones of the scenario's single merged row. -/
def phonesScenario : List Phones := [⟨["5551234567"], ["5559876543"]⟩]

/-- Witness for C1 at the scenario tables: the hypothesis holds by
computation and the single joined row appears in both outputs. -/
theorem c1_record_production_witness :
    getPhoneData (mergeInner dfScenario.rows dfParcelOne.rows) = .ok phonesScenario ∧
    (∃ stats : Stats, processFiles dfScenario dfParcelOne = .ok
      (roorOutsSpec ((mergeInner dfScenario.rows dfParcelOne.rows).zip phonesScenario),
       rmOutsSpec dfParcelOne.cols
         ((mergeInner dfScenario.rows dfParcelOne.rows).zip phonesScenario),
       stats)) ∧
    (roorOutsSpec ((mergeInner dfScenario.rows dfParcelOne.rows).zip phonesScenario)).length
      = 1 ∧
    (rmOutsSpec dfParcelOne.cols
      ((mergeInner dfScenario.rows dfParcelOne.rows).zip phonesScenario)).length = 1 :=
  ⟨by rfl, (c1_record_production dfScenario dfParcelOne phonesScenario (by rfl)).1,
   by rfl, by rfl⟩

/-- Row exercising the classification rule: Phone1 typed " MOBILE " (case and
whitespace), Phone2 "Residential", Phone3 an unrecognized type, Phone4 an
empty number with a mobile type. -/
def rowTypes : Row :=
  [("Phone1", .num 5551111111), ("Phone1 Type", .str " MOBILE "),
   ("Phone2", .num 5552222222), ("Phone2 Type", .str "Residential"),
   ("Phone3", .num 5553333333), ("Phone3 Type", .str "work"),
   ("Phone4", .str ""), ("Phone4 Type", .str "Mobile")]

/-- Witness for C2 at `rowTypes`: " MOBILE " classifies as mobile, "work" and
the empty number are dropped. -/
theorem c2_phone_classification_witness :
    rowCoercible rowTypes ∧
    getPhonesRow rowTypes = .ok ⟨mobileListSpec rowTypes, residentialListSpec rowTypes⟩ ∧
    getPhonesRow rowTypes = .ok ⟨["5551111111"], ["5552222222"]⟩ :=
  ⟨by decide, (c2_phone_classification rowTypes (by decide)).1, by rfl⟩

/-- Row whose only phones sit at indices 5 and 7, both typed "Mobile". -/
def row57 : Row :=
  [("Phone5", .num 5551111111), ("Phone5 Type", .str "Mobile"),
   ("Phone7", .num 5552222222), ("Phone7 Type", .str "Mobile")]

/-- Witness for C3 at `row57`: Phone1 = value(Phone5), Phone2 = value(Phone7),
Phone3 empty. -/
theorem c3_roor_phone_order_witness :
    rowCoercible row57 ∧
    createRoorRecord row57 (mobileListSpec row57) =
      .ok (roorRecordPure row57 (mobileListSpec row57)) ∧
    rowGet (roorRecordPure row57 (mobileListSpec row57)) "Phone1" .na = .str "5551111111" ∧
    rowGet (roorRecordPure row57 (mobileListSpec row57)) "Phone2" .na = .str "5552222222" ∧
    rowGet (roorRecordPure row57 (mobileListSpec row57)) "Phone3" .na = .str "" :=
  ⟨by decide, (c3_roor_phone_order row57 (by decide)).2.2.1, by rfl, by rfl, by rfl⟩

/-- The scenario pipeline run, for extracting concrete outputs. -/
def scenarioRun : List Rec × List Rec × Stats :=
  (processFiles dfScenario dfParcelOne).toOption.getD ([], [], ⟨0, 0, 0, 0, 0, 0, 0⟩)

/-- Witness for C6 at the scenario tables: all seven statistics equal 1. -/
theorem c6_statistics_witness :
    processFiles dfScenario dfParcelOne =
      .ok (scenarioRun.1, scenarioRun.2.1, scenarioRun.2.2) ∧
    scenarioRun.2.2 = ⟨1, 1, 1, 1, 1, 1, 1⟩ :=
  ⟨by rfl, by
    have h := c6_statistics dfScenario dfParcelOne scenarioRun.1 scenarioRun.2.1
      scenarioRun.2.2 (by rfl)
    rw [h]
    rfl⟩

/-- Row carrying the C7 example coordinates. -/
def rowGeo : Row := [("Latitude", .str "34.05"), ("Longitude", .str "-118.25")]

/-- The ReadyMode record built from `rowGeo`. -/
def rmGeoRec : Rec :=
  (createReadymodeRecord rowGeo ["5559876543"] landportalRequired).toOption.getD []

/-- Witness for C7 at latitude 34.05, longitude -118.25: the URL is exactly
the claimed string. -/
theorem c7_google_maps_url_witness :
    landportalRequired.contains "Google Maps URL" = false ∧
    createReadymodeRecord rowGeo ["5559876543"] landportalRequired = .ok rmGeoRec ∧
    rowGet rmGeoRec "Google Maps URL" .na =
      .str "http://maps.google.com/maps?z=16&t=m&q=34.05,-118.25" :=
  ⟨by rfl, by rfl, by
    have h := c7_google_maps_url rowGeo ["5559876543"] landportalRequired rmGeoRec
      (by rfl) (by rfl)
    rw [h]
    rfl⟩

/-- Joined row with a NaN "Parcel City" cell and no "APN" column at all. -/
def rowMissing : Row := [("Matched First Name", .str "Ann"), ("Parcel City", Cell.na)]

/-- The RooR record built from `rowMissing` (empty mobile list). -/
def roorMissingRec : Rec := (createRoorRecord rowMissing []).toOption.getD []

/-- Witness for C9 at `rowMissing`: all 13 keys present; the NaN city and the
absent APN are both emitted as the empty string. -/
theorem c9_roor_full_schema_witness :
    createRoorRecord rowMissing [] = .ok roorMissingRec ∧
    roorMissingRec.map Prod.fst = ["FirstName", "LastName", "Email", "PropertyAddress",
      "PropertyCity", "PropertyState", "PropertyZip", "Phone1", "Phone2", "Phone3", "APN",
      "PropertyCounty", "Acreage"] ∧
    emitCell (rowGet roorMissingRec "PropertyCity" .na) = "" ∧
    emitCell (rowGet roorMissingRec "APN" .na) = "" :=
  ⟨by rfl, (c9_roor_full_schema rowMissing [] roorMissingRec (by rfl)).1,
   (c9_roor_full_schema rowMissing [] roorMissingRec (by rfl)).2.2
     ("PropertyCity", "Parcel City") (by decide) (Or.inl (by rfl)),
   (c9_roor_full_schema rowMissing [] roorMissingRec (by rfl)).2.2
     ("APN", "APN") (by decide) (Or.inr (by rfl))⟩

/-- Contact table whose sole phone column is "Phone10", carrying a value. -/
def dfPhone10 : DF :=
  ⟨["Input Custom Field 1", "Matched First Name", "Matched Last Name", "Phone10"],
   [[("Input Custom Field 1", .str "K1"), ("Matched First Name", .str "Ann"),
     ("Matched Last Name", .str "Lee"), ("Phone10", .num 5551234567)]]⟩

/-- Parcel table joining that row. -/
def dfParcelK1 : DF := ⟨landportalRequired, [[("propertyID", .str "K1")]]⟩

/-- Witness for C10 at `dfPhone10`: validation passes, the Phone10 value is
ignored, totals are zero, outputs are empty. -/
theorem c10_out_of_range_phones_witness :
    (∀ c ∈ directskipRequired, c ∈ dfPhone10.cols) ∧
    (∃ c ∈ dfPhone10.cols, isPhoneNumberCol c = true) ∧
    (∀ row ∈ dfPhone10.rows, ∀ i ∈ phoneIdxs, phoneNumCell row i = .na) ∧
    validateColumns dfPhone10 dfParcelK1 = [] ∧
    processFiles dfPhone10 dfParcelK1 = .ok ([], [], ⟨1, 1, 1, 0, 0, 0, 0⟩) := by
  have h := c10_out_of_range_phones dfPhone10 dfParcelK1 (by decide) (by decide) (by decide)
    (by decide) (by decide)
  exact ⟨by decide, by decide, by decide, h.1, h.2.trans (by rfl)⟩

end SkipSlicer
